import Mathlib

/-!
Verification development for the chat-orchestrator core of the repository
(`app/services/chat_orchestrator.py`): the summarization-buffer memory,
the context assembler, the message-processing sequence and the diary
extraction pipeline, shallowly embedded as executable Lean definitions.

External collaborators are modelled as function parameters:
the token estimator `est : String → Nat` (tiktoken `len(encode(...))`),
the language model `llm : List LCMessage → String` (a black-box function
from a message list to text, per the spec's Generator contract), the
fallible chat generation call `chat_gen : List LCMessage → Except Unit String`,
and the JSON decoder `json_loads : String → Option CBTData`.
The Redis-backed session hash is modelled as `SessionStore`, with
`Option` fields for `hget` results (`none` = field absent).
-/

/-- A stored conversation turn, as kept in Redis: a role string and content.
The role is a raw string (the store itself does not constrain it). -/
structure Msg where
  role : String
  content : String
deriving DecidableEq

/-- A LangChain-style role-tagged context message:
`SystemMessage` / `HumanMessage` / `AIMessage`. -/
inductive LCMessage where
  | system : String → LCMessage
  | human : String → LCMessage
  | ai : String → LCMessage
deriving DecidableEq

/-- The per-session state held in the Redis hash: the ordered message log,
the `conversation_summary` field and the `summarized_count` field
(`none` when the field is absent). -/
structure SessionStore where
  log : List Msg
  conversationSummary : Option String
  summarizedCount : Option Nat
deriving DecidableEq

/-- Result of `_apply_summary_buffer_memory`: the buffered context messages,
the (possibly updated) session store, and how many summarization calls to
the language model were made (0 or 1). -/
structure BufferResult where
  buffered : List LCMessage
  store : SessionStore
  summaryCalls : Nat
deriving DecidableEq

/-- `MAX_TOKEN_LIMIT = 2000`. -/
def MAX_TOKEN_LIMIT : Nat := 2000

/-- Python truthiness of an optional string (`not cached_summary` is true
when `hget` returned `None` or the empty string). -/
def py_truthy_opt (o : Option String) : Bool :=
  match o with
  | none => false
  | some s => !s.data.isEmpty

/-- Python `str.strip()`: drop whitespace from both ends. -/
def py_strip (s : String) : String :=
  String.mk (((s.toList.dropWhile Char.isWhitespace).reverse.dropWhile
    Char.isWhitespace).reverse)

/-- The recency-window loop of `_apply_summary_buffer_memory`, iterating
over `reversed(full_conversation)`: accumulate a turn while the running
token total stays ≤ `MAX_TOKEN_LIMIT`, `break` otherwise.  `insert(0, msg)`
is the cons onto the accumulator. -/
def recent_messages_go (est : String → Nat) :
    List Msg → Nat → List Msg → List Msg
  | [], _, acc => acc
  | m :: rest, tok, acc =>
    if tok + est m.content ≤ MAX_TOKEN_LIMIT then
      recent_messages_go est rest (tok + est m.content) (m :: acc)
    else acc

/-- The `recent_messages` computed by the recency-window loop, in original
order. -/
def recent_messages (est : String → Nat) (full : List Msg) : List Msg :=
  recent_messages_go est full.reverse 0 []

/-- `old_messages = full_conversation[:len(full_conversation) - len(recent_messages)]`. -/
def old_messages (est : String → Nat) (full : List Msg) : List Msg :=
  full.take (full.length - (recent_messages est full).length)

/-- `_convert_to_langchain_messages`: `user` turns become `HumanMessage`,
`assistant` turns become `AIMessage`, any other role is skipped. -/
def convert_to_langchain_messages : List Msg → List LCMessage
  | [] => []
  | m :: rest =>
    if m.role = "user" then
      LCMessage.human m.content :: convert_to_langchain_messages rest
    else if m.role = "assistant" then
      LCMessage.ai m.content :: convert_to_langchain_messages rest
    else convert_to_langchain_messages rest

/-- The staleness condition of step 4 of `_apply_summary_buffer_memory`:
`not cached_summary or (cached_msg_count and int(cached_msg_count) < len(old_messages))`. -/
def stale_check (cached : Option String) (cachedCount : Option Nat)
    (oldLen : Nat) : Bool :=
  !(py_truthy_opt cached) ||
    (match cachedCount with
     | some c => decide (c < oldLen)
     | none => false)

/-- The role label used when joining old turns into the summarization
prompt (`"사용자" if msg["role"] == "user" else "상담사"`). -/
def role_label (m : Msg) : String :=
  if m.role = "user" then "사용자" else "상담사"

/-- `conversation_text` accumulated by `_summarize_old_messages`. -/
def conversation_text_of (old : List Msg) : String :=
  old.foldl (fun acc m => acc ++ (role_label m ++ ": " ++ m.content ++ "\n\n")) ""

/-- The summarization prompt text of `_summarize_old_messages`. -/
def summary_prompt_of (old : List Msg) : String :=
  "다음은 상담 대화의 초기 부분입니다. 이를 간결하게 요약해주세요.\n\n**대화 내용:**\n"
    ++ conversation_text_of old
    ++ "\n\n**요약 지침:**\n- 핵심 주제와 감정만 포함\n- 3-5 문장으로 간결하게\n- 사용자의 관점에서 작성\n\n요약:"

/-- `_summarize_old_messages`: build the prompt, invoke the language model,
return `response.content.strip()`. -/
def summarize_old_messages (llm : List LCMessage → String)
    (old : List Msg) : String :=
  py_strip (llm
    [LCMessage.system "당신은 상담 대화를 요약하는 전문가입니다.",
     LCMessage.human (summary_prompt_of old)])

/-- The fixed label prefixed to the summary in the returned system message. -/
def summary_label : String := "**이전 대화 요약:**\n"

/-- `_apply_summary_buffer_memory`: split the log into recent/old turns by
the 2000-token recency window; when old turns exist, recompute the summary
if the cache is stale (writing both fields back), otherwise reuse the
cached text; return the summary system message followed by the converted
recent turns. -/
def apply_summary_buffer_memory (est : String → Nat)
    (llm : List LCMessage → String) (store : SessionStore) : BufferResult :=
  if store.log.isEmpty then ⟨[], store, 0⟩
  else
    let recent := recent_messages est store.log
    let old := old_messages est store.log
    if old.isEmpty then ⟨convert_to_langchain_messages recent, store, 0⟩
    else if stale_check store.conversationSummary store.summarizedCount old.length then
      let summaryText := summarize_old_messages llm old
      ⟨LCMessage.system (summary_label ++ summaryText)
         :: convert_to_langchain_messages recent,
       { store with conversationSummary := some summaryText,
                    summarizedCount := some old.length },
       1⟩
    else
      let summaryText := store.conversationSummary.getD ""
      ⟨LCMessage.system (summary_label ++ summaryText)
         :: convert_to_langchain_messages recent,
       store, 0⟩

/-- A diary item retrieved by RAG: its content and the optional
`created_at` entry of its metadata mapping. -/
structure RetrievedItem where
  content : String
  createdAt : Option String
deriving DecidableEq

/-- Python character slice `s[:n]` (by code points). -/
def py_slice (s : String) (n : Nat) : String :=
  String.mk (s.toList.take n)

/-- One rendered diary line of `_build_context_with_memory`:
`f"{idx}. [{created_at}] {content}...\n"` with `created_at` defaulting to
`"알 수 없음"` and `content` cut to its first 200 characters. -/
def diary_line (idx : Nat) (diary : RetrievedItem) : String :=
  toString idx ++ ". [" ++ diary.createdAt.getD "알 수 없음" ++ "] "
    ++ py_slice diary.content 200 ++ "...\n"

/-- The `diary_context` string accumulated by the `enumerate(similar_diaries, 1)`
loop, starting from the fixed header. -/
def diary_context_of (similar_diaries : List RetrievedItem) : String :=
  (similar_diaries.enumFrom 1).foldl
    (fun acc p => acc ++ diary_line p.1 p.2) "\n\n**과거 일기 참고:**\n"

/-- `_build_context_with_memory`: one system message collapsing the base
system prompt, the optional knowledge block and the optional diary block;
then the buffered messages verbatim; then the current user message. -/
def build_context_with_memory (system_prompt : String)
    (similar_diaries : List RetrievedItem) (buffered_messages : List LCMessage)
    (current_message : String) (manual_context : Option String) : List LCMessage :=
  let c0 := system_prompt
  let c1 := if py_truthy_opt manual_context then
      c0 ++ "\n" ++ ("\n\n**전문 지식 (참고 자료):**\n" ++ manual_context.getD "" ++ "\n")
    else c0
  let c2 := if similar_diaries.isEmpty then c1
    else c1 ++ "\n" ++ diary_context_of similar_diaries
  (LCMessage.system c2 :: buffered_messages) ++ [LCMessage.human current_message]

/-- Errors `process_message` can propagate: the invalid-session
`ValueError` and a failure raised by the chat generation call. -/
inductive ProcError where
  | invalidSession
  | generationFailure
deriving DecidableEq

/-- The dictionary returned by `process_message`: the answer text and the
`created_at` dates of the retrieved diaries (`None` when no diary was
retrieved). -/
structure ChatAnswer where
  answer : String
  similarDiaries : Option (List (Option String))
deriving DecidableEq

/-- Outcome of `process_message`: the returned value or the propagated
error, the session store after the call, and the number of summarization
calls made. -/
structure ProcessResult where
  result : Except ProcError ChatAnswer
  store : SessionStore
  summaryCalls : Nat

/-- Modelled from the spec: `diary_service.py` is not under `src/`.  Per
the spec, Retriever availability is best-effort and `RetrievalUnavailable`
is "recovered locally, degrades silently to absent context": a failing
underlying diary search yields the empty item list instead of raising. -/
def search_similar_diaries (outcome : Except Unit (List RetrievedItem)) :
    List RetrievedItem :=
  match outcome with
  | .ok items => items
  | .error _ => []

/-- The `manual_context` computed by step 6 of `process_message`: `none`
when no vector store is configured, the query answer on success, and
`none` when `query` raised (the exception is caught and logged). -/
def manual_context_of (vs_outcome : Option (Except Unit String)) : Option String :=
  match vs_outcome with
  | none => none
  | some (.ok answer) => some answer
  | some (.error _) => none

/-- `add_message` of the session manager: append one turn to the log. -/
def add_message (store : SessionStore) (role content : String) : SessionStore :=
  { store with log := store.log ++ [⟨role, content⟩] }

/-- The context assembled inside `process_message` (steps 4–7). -/
def process_context (system_prompt : String) (est : String → Nat)
    (llm : List LCMessage → String) (diary_outcome : Except Unit (List RetrievedItem))
    (vs_outcome : Option (Except Unit String)) (store : SessionStore)
    (user_message : String) : List LCMessage :=
  build_context_with_memory system_prompt (search_similar_diaries diary_outcome)
    (apply_summary_buffer_memory est llm store).buffered user_message
    (manual_context_of vs_outcome)

/-- `process_message`: validate the session, compress the log, run both
retrievals, assemble the context, invoke the chat generation, and append
the user and assistant turns (in that order) only on success. -/
def process_message (system_prompt : String) (est : String → Nat)
    (llm : List LCMessage → String)
    (chat_gen : List LCMessage → Except Unit String)
    (diary_outcome : Except Unit (List RetrievedItem))
    (vs_outcome : Option (Except Unit String))
    (session_exists : Bool) (store : SessionStore)
    (user_message : String) : ProcessResult :=
  if session_exists then
    let br := apply_summary_buffer_memory est llm store
    let similar := search_similar_diaries diary_outcome
    let context := process_context system_prompt est llm diary_outcome
      vs_outcome store user_message
    match chat_gen context with
    | .error _ => ⟨.error .generationFailure, br.store, br.summaryCalls⟩
    | .ok assistant_response =>
      ⟨.ok ⟨assistant_response,
            if similar.isEmpty then none
            else some (similar.map (fun d => d.createdAt))⟩,
       add_message (add_message br.store "user" user_message)
         "assistant" assistant_response,
       br.summaryCalls⟩
  else ⟨.error .invalidSession, store, 0⟩

/-- The opening-brace character, written by code point. -/
def lbrace : Char := Char.ofNat 123

/-- The closing-brace character, written by code point. -/
def rbrace : Char := Char.ofNat 125

/-- Index of the first occurrence of a character. -/
def firstIndexOf (cs : List Char) (c : Char) : Option Nat :=
  match cs with
  | [] => none
  | a :: rest =>
    if a = c then some 0 else (firstIndexOf rest c).map (· + 1)

/-- Index of the last occurrence of a character. -/
def lastIndexOf (cs : List Char) (c : Char) : Option Nat :=
  (firstIndexOf cs.reverse c).map (fun k => cs.length - 1 - k)

/-- The fallback of `_extract_json_from_markdown` when the regex finds no
span: return the whole text if `text.strip().startswith("{")`, else `None`. -/
def extract_json_fallback (text : String) : Option String :=
  if (py_strip text).toList.head? = some lbrace then some text else none

/-- `_extract_json_from_markdown`: `re.search(r'\x7b.*\x7d', text, re.DOTALL)`
matches from the first opening brace to the last closing brace when the
latter lies strictly beyond the former; otherwise fall back to the
strip/startswith check. -/
def extract_json_from_markdown (text : String) : Option String :=
  let cs := text.toList
  match firstIndexOf cs lbrace, lastIndexOf cs rbrace with
  | some i, some j =>
    if i < j then some (String.mk ((cs.drop i).take (j - i + 1)))
    else extract_json_fallback text
  | _, _ => extract_json_fallback text

/-- One element of the decoded `thoughts` list: a plain JSON string, a
JSON object (whose optional `text` field is retained, since only that
field is read), or a value of any other JSON type. -/
inductive ThoughtItem where
  | asString : String → ThoughtItem
  | asObj : Option String → ThoughtItem
  | otherItem : ThoughtItem
deriving DecidableEq

/-- The decoded CBT JSON value, abstracted to what the pipeline reads:
its `thoughts` list and its `json.dumps(..., ensure_ascii=False)`
serialization (handed to the diary-generation chain). -/
structure CBTData where
  thoughts : List ThoughtItem
  dumped : String
deriving DecidableEq

/-- The `thought_texts` loop: objects contribute `t.get('text', '')`,
strings contribute themselves, other values are skipped. -/
def thought_texts_of (ts : List ThoughtItem) : List String :=
  ts.filterMap fun t =>
    match t with
    | .asString s => some s
    | .asObj text => some (text.getD "")
    | .otherItem => none

/-- The dictionary returned by `summarize_conversation_to_diary`. -/
structure DiaryResult where
  diary_text : String
  alternative_perspective : String
deriving DecidableEq

/-- Outcome of the diary pipeline: the returned result and the number of
model-chain invocations performed. -/
structure DiaryOutcome where
  result : DiaryResult
  modelCalls : Nat
deriving DecidableEq

/-- The transcript string joined from the full conversation. -/
def transcript_of (full_conversation : List Msg) : String :=
  String.intercalate "\n" (full_conversation.map
    (fun m => role_label m ++ ": " ++ m.content))

/-- `summarize_conversation_to_diary`: empty log short-circuits; stage 1
extracts CBT JSON from the model output (failures return fixed messages
with a diagnostic, never an exception); stage 2 makes the alternative
perspective from the thoughts when present; stage 3 generates the diary. -/
def summarize_conversation_to_diary
    (extract_chain perspective_chain diary_chain : String → String)
    (json_loads : String → Option CBTData)
    (full_conversation : List Msg) : DiaryOutcome :=
  if full_conversation.isEmpty then
    ⟨⟨"일기를 생성할 대화 내용이 없습니다.", ""⟩, 0⟩
  else
    let cbt_data_str := extract_chain (transcript_of full_conversation)
    match extract_json_from_markdown cbt_data_str with
    | none =>
      ⟨⟨"일기 생성 중 오류가 발생했습니다. 대화 내용을 분석하는 데 실패했습니다.",
        "오류: AI 응답에서 CBT 데이터를 추출하지 못했습니다. (응답: " ++ cbt_data_str ++ ")"⟩, 1⟩
    | some pure_json_str =>
      match json_loads pure_json_str with
      | none =>
        ⟨⟨"일기 생성 중 오류가 발생했습니다. 분석된 데이터 형식이 올바르지 않습니다.",
          "오류: AI가 생성한 CBT 데이터의 형식이 잘못되었습니다. (내용: " ++ pure_json_str ++ ")"⟩, 1⟩
      | some cbt_data =>
        let thought_texts := thought_texts_of cbt_data.thoughts
        let final_alternative_perspective :=
          if thought_texts.isEmpty then ""
          else perspective_chain (String.intercalate "\n- " thought_texts)
        let final_diary_text := diary_chain cbt_data.dumped
        ⟨⟨final_diary_text, final_alternative_perspective⟩,
         1 + (if thought_texts.isEmpty then 0 else 1) + 1⟩

/-- A token estimator that prices every text at 2001 tokens (over the
2000-token budget). -/
def est0 : String → Nat := fun _ => 2001

/-- A token estimator that prices every text at one token. -/
def est1 : String → Nat := fun _ => 1

/-- A language model returning the fixed non-empty text `"s"`. -/
def llm_s : List LCMessage → String := fun _ => "s"

/-- A language model returning the empty text. -/
def llm_empty : List LCMessage → String := fun _ => ""

/-- A one-turn message log. -/
def log1 : List Msg := [⟨"user", "hi"⟩]

/-- A session whose log is `log1`, with a cold summary cache. -/
def store0 : SessionStore := ⟨log1, none, none⟩

/-- A stage-1 extraction chain whose output embeds a JSON span inside
prose: `"x\x7ba\x7d"`. -/
def ecX : String → String :=
  fun _ => "x" ++ String.mk [lbrace] ++ "a" ++ String.mk [rbrace]

/-- A JSON decoder that rejects every input. -/
def jl_none : String → Option CBTData := fun _ => none

/-- A perspective chain returning the fixed text `"p"`. -/
def pc_s : String → String := fun _ => "p"

/-- A diary chain returning the fixed text `"d"`. -/
def dc_s : String → String := fun _ => "d"

/-- `_apply_summary_buffer_memory` never changes the message log: it only
touches the summary fields. -/
theorem apply_summary_buffer_memory_log (est : String → Nat)
    (llm : List LCMessage → String) (store : SessionStore) :
    (apply_summary_buffer_memory est llm store).store.log = store.log := by
  simp only [apply_summary_buffer_memory]
  split
  · rfl
  · split
    · rfl
    · split <;> rfl

/-- A string is empty exactly when its character list is. -/
theorem string_eq_empty_iff (s : String) : s = "" ↔ s.data = [] := by
  cases s with
  | mk d => simp [String.ext_iff]

/-- `_convert_to_langchain_messages` is the filter-map keeping `user` and
`assistant` turns and dropping every other role. -/
theorem convert_eq_filterMap (msgs : List Msg) :
    convert_to_langchain_messages msgs = msgs.filterMap (fun m =>
      if m.role = "user" then some (LCMessage.human m.content)
      else if m.role = "assistant" then some (LCMessage.ai m.content)
      else none) := by
  induction msgs with
  | nil => rfl
  | cons m rest ih =>
    by_cases h1 : m.role = "user" <;> by_cases h2 : m.role = "assistant" <;>
      simp [convert_to_langchain_messages, h1, h2, ih]

/-- The role-tagged message of a well-formed turn. -/
def to_role_tagged (m : Msg) : LCMessage :=
  if m.role = "user" then LCMessage.human m.content else LCMessage.ai m.content

/-- On logs whose roles are all in the data-model enum, the conversion is
the plain map to role-tagged messages. -/
theorem convert_eq_map_of_valid (msgs : List Msg)
    (h : ∀ m ∈ msgs, m.role = "user" ∨ m.role = "assistant") :
    convert_to_langchain_messages msgs = msgs.map to_role_tagged := by
  induction msgs with
  | nil => rfl
  | cons m rest ih =>
    have hrest : ∀ x ∈ rest, x.role = "user" ∨ x.role = "assistant" :=
      fun x hx => h x (List.mem_cons_of_mem m hx)
    rcases h m (List.mem_cons_self m rest) with h1 | h2
    · simp [convert_to_langchain_messages, to_role_tagged, h1, ih hrest]
    · by_cases h1 : m.role = "user"
      · simp [convert_to_langchain_messages, to_role_tagged, h1, ih hrest]
      · simp [convert_to_langchain_messages, to_role_tagged, h1, h2, ih hrest]

/-- When the whole remaining token mass fits into the budget, the
recency-window loop consumes everything. -/
theorem recent_messages_go_all (est : String → Nat) :
    ∀ (l : List Msg) (tok : Nat) (acc : List Msg),
      tok + (l.map (fun m => est m.content)).sum ≤ MAX_TOKEN_LIMIT →
      recent_messages_go est l tok acc = l.reverse ++ acc := by
  intro l
  induction l with
  | nil => intro tok acc _; simp [recent_messages_go]
  | cons m rest ih =>
    intro tok acc h
    simp only [List.map_cons, List.sum_cons] at h
    have hm : tok + est m.content ≤ MAX_TOKEN_LIMIT := by omega
    simp only [recent_messages_go, if_pos hm]
    rw [ih (tok + est m.content) (m :: acc) (by omega)]
    simp

/-- A log whose total estimated token cost is within the budget is kept
entirely as the recent window. -/
theorem recent_messages_of_total_le (est : String → Nat) (full : List Msg)
    (h : (full.map (fun m => est m.content)).sum ≤ MAX_TOKEN_LIMIT) :
    recent_messages est full = full := by
  unfold recent_messages
  rw [recent_messages_go_all est full.reverse 0 []
    (by simpa [List.map_reverse, List.sum_reverse] using h)]
  simp

/-- A log whose total estimated token cost is within the budget has no
old turns. -/
theorem old_messages_of_total_le (est : String → Nat) (full : List Msg)
    (h : (full.map (fun m => est m.content)).sum ≤ MAX_TOKEN_LIMIT) :
    old_messages est full = [] := by
  unfold old_messages
  rw [recent_messages_of_total_le est full h]
  simp

/-- The staleness test of the code, characterized as a proposition: stale
exactly when the summary field is absent or empty, or a stored count is
strictly below the freshly computed old-turn count. -/
theorem stale_check_iff (cached : Option String) (cachedCount : Option Nat)
    (oldLen : Nat) :
    stale_check cached cachedCount oldLen = true ↔
      (cached = none ∨ cached = some "" ∨
        ∃ c, cachedCount = some c ∧ c < oldLen) := by
  cases cached with
  | none =>
    simp [stale_check, py_truthy_opt]
  | some s =>
    cases cachedCount with
    | none =>
      simp [stale_check, py_truthy_opt, List.isEmpty_iff, ← string_eq_empty_iff]
    | some c =>
      simp [stale_check, py_truthy_opt, List.isEmpty_iff, ← string_eq_empty_iff]

/-- Accumulating string concatenation over a list is the concatenation of
the individually rendered pieces. -/
theorem foldl_append_string {α : Type} (f : α → String) :
    ∀ (l : List α) (init : String),
      l.foldl (fun acc a => acc ++ f a) init
        = init ++ (l.map f).foldr (fun a b => a ++ b) "" := by
  intro l
  induction l with
  | nil => intro init; simp
  | cons a rest ih =>
    intro init
    simp only [List.foldl_cons, List.map_cons, List.foldr_cons, ih,
      String.append_assoc]

/-- Whatever `_extract_json_from_markdown` returns is a contiguous piece
of its input. -/
theorem extract_json_isInfix (text s : String)
    (h : extract_json_from_markdown text = some s) :
    s.toList <:+: text.toList := by
  have hfb : ∀ t u : String, extract_json_fallback t = some u → u = t := by
    intro t u hu
    unfold extract_json_fallback at hu
    split at hu
    · exact (Option.some.injEq .. ▸ hu).symm
    · exact absurd hu (by simp)
  unfold extract_json_from_markdown at h
  rcases hfi : firstIndexOf text.toList lbrace with _ | i <;>
    rcases hla : lastIndexOf text.toList rbrace with _ | j <;>
      simp only [hfi, hla] at h
  · exact hfb _ _ h ▸ List.infix_refl _
  · exact hfb _ _ h ▸ List.infix_refl _
  · exact hfb _ _ h ▸ List.infix_refl _
  · split at h
    · have hs : s = String.mk ((text.toList.drop i).take (j - i + 1)) :=
        (Option.some.injEq .. ▸ h).symm
      subst hs
      exact ((List.take_prefix _ _).isInfix).trans
        ((List.drop_suffix _ _).isInfix)
    · exact hfb _ _ h ▸ List.infix_refl _

/-- Claim C1 counterexample: with a one-turn log whose sole turn is
estimated at 2001 tokens, the recency-window loop returns the EMPTY
recent set (the claim says it never does on a non-empty log), all turns
become old, and on a cold cache a summary recompute is triggered even
though no turn exists beyond the most recent one. -/
theorem c1_counterexample :
    log1 ≠ [] ∧
    recent_messages est0 log1 = [] ∧
    old_messages est0 log1 = log1 ∧
    (apply_summary_buffer_memory est0 llm_s store0).summaryCalls = 1 := by
  refine ⟨by decide, by decide, by decide, by decide⟩

/-- Claim C1 (amended): when the most recent turn of a non-empty log
alone exceeds the 2000-token budget, the recency-window loop returns an
EMPTY recent set, every turn of the log (that turn included) counts as
old, and with no cached summary a summary recompute is triggered even
though no turn exists beyond the most recent one. -/
theorem c1_amended_theorem (est : String → Nat) (llm : List LCMessage → String)
    (store : SessionStore) (m : Msg)
    (hlast : store.log.getLast? = some m)
    (hbig : MAX_TOKEN_LIMIT < est m.content)
    (hcold : store.conversationSummary = none) :
    recent_messages est store.log = [] ∧
    old_messages est store.log = store.log ∧
    (apply_summary_buffer_memory est llm store).summaryCalls = 1 := by
  have hne : store.log ≠ [] := by
    intro h0
    rw [h0] at hlast
    exact absurd hlast (by simp)
  have hrev : store.log.reverse.head? = some m := by
    rw [List.head?_reverse]; exact hlast
  obtain ⟨rest, hrevEq⟩ : ∃ rest, store.log.reverse = m :: rest := by
    cases hcase : store.log.reverse with
    | nil => rw [hcase] at hrev; exact absurd hrev (by simp)
    | cons a t =>
      rw [hcase] at hrev
      simp only [List.head?_cons, Option.some.injEq] at hrev
      exact ⟨t, by rw [hrev]⟩
  have hrecent : recent_messages est store.log = [] := by
    unfold recent_messages
    rw [hrevEq]
    simp only [recent_messages_go]
    rw [if_neg (by omega)]
  have hold : old_messages est store.log = store.log := by
    unfold old_messages
    rw [hrecent]
    simp [List.take_length]
  refine ⟨hrecent, hold, ?_⟩
  have hlogE : store.log.isEmpty = false := List.isEmpty_eq_false.mpr hne
  have holdE : (old_messages est store.log).isEmpty = false := by
    rw [hold]; exact hlogE
  simp only [apply_summary_buffer_memory, hlogE, Bool.false_eq_true,
    if_false, holdE]
  rw [if_pos]
  rw [hcold]
  simp [stale_check, py_truthy_opt]

/-- Claim C1 witness: the amended theorem applied to the 2001-token
estimator, a one-turn log and a cold cache. -/
theorem c1_amended_witness :
    store0.log.getLast? = some (⟨"user", "hi"⟩ : Msg) ∧
    MAX_TOKEN_LIMIT < est0 "hi" ∧
    (recent_messages est0 store0.log = [] ∧
     old_messages est0 store0.log = store0.log ∧
     (apply_summary_buffer_memory est0 llm_s store0).summaryCalls = 1) :=
  ⟨by decide, by decide,
   c1_amended_theorem est0 llm_s store0 ⟨"user", "hi"⟩ (by decide) (by decide) rfl⟩

/-- The session state refuting claim C2: a cached summary that is the
empty string, with an up-to-date stored count. -/
def store_empty_summary : SessionStore := ⟨log1, some "", some 1⟩

/-- Claim C2 counterexample: the cached summary exists (the empty string)
and the stored count (1) is not strictly below the old-turn count (1), so
the claim requires the cache to be reused with no Generator call and no
store write — but the code treats the falsy empty string as "no summary"
and recomputes, invoking the Generator and writing the store. -/
theorem c2_counterexample :
    old_messages est0 store_empty_summary.log = log1 ∧
    store_empty_summary.conversationSummary = some "" ∧
    store_empty_summary.summarizedCount = some 1 ∧
    ¬ (1 < (old_messages est0 store_empty_summary.log).length) ∧
    (apply_summary_buffer_memory est0 llm_s store_empty_summary).summaryCalls = 1 ∧
    (apply_summary_buffer_memory est0 llm_s store_empty_summary).store
      ≠ store_empty_summary := by
  refine ⟨by decide, rfl, rfl, by decide, by decide, by decide⟩

/-- Claim C2 (amended): when old turns exist, the summary is recomputed
(one Generator call, both fields written back) exactly when (a) no cached
summary exists OR THE CACHED SUMMARY IS THE EMPTY STRING, or (b) a stored
`summarized_count` is strictly below the freshly computed old-turn count;
in every other case the cached text is reused verbatim with no Generator
call and no store write. -/
theorem c2_amended_theorem (est : String → Nat) (llm : List LCMessage → String)
    (store : SessionStore) (h : old_messages est store.log ≠ []) :
    ((store.conversationSummary = none ∨ store.conversationSummary = some "" ∨
      (∃ c, store.summarizedCount = some c ∧
         c < (old_messages est store.log).length)) →
      (apply_summary_buffer_memory est llm store).summaryCalls = 1 ∧
      (apply_summary_buffer_memory est llm store).store =
        { store with
            conversationSummary :=
              some (summarize_old_messages llm (old_messages est store.log)),
            summarizedCount := some (old_messages est store.log).length }) ∧
    (¬ (store.conversationSummary = none ∨ store.conversationSummary = some "" ∨
        (∃ c, store.summarizedCount = some c ∧
           c < (old_messages est store.log).length)) →
      (apply_summary_buffer_memory est llm store).summaryCalls = 0 ∧
      (apply_summary_buffer_memory est llm store).store = store ∧
      (apply_summary_buffer_memory est llm store).buffered =
        LCMessage.system (summary_label ++ store.conversationSummary.getD "")
          :: convert_to_langchain_messages (recent_messages est store.log)) := by
  have hne : store.log ≠ [] := by
    intro h0
    apply h
    unfold old_messages
    rw [h0]
    simp
  have hlogE : store.log.isEmpty = false := List.isEmpty_eq_false.mpr hne
  have holdE : (old_messages est store.log).isEmpty = false :=
    List.isEmpty_eq_false.mpr h
  constructor
  · intro hstaleP
    have hstale : stale_check store.conversationSummary store.summarizedCount
        (old_messages est store.log).length = true :=
      (stale_check_iff _ _ _).mpr hstaleP
    simp [apply_summary_buffer_memory, hlogE, holdE, hstale]
  · intro hstaleP
    have hstale : stale_check store.conversationSummary store.summarizedCount
        (old_messages est store.log).length = false := by
      rcases hb : stale_check store.conversationSummary store.summarizedCount
          (old_messages est store.log).length with _ | _
      · rfl
      · exact absurd ((stale_check_iff _ _ _).mp hb) hstaleP
    simp [apply_summary_buffer_memory, hlogE, holdE, hstale]

/-- Claim C2 witness: the amended theorem at a concrete stale state (no
cached summary) — the recompute direction fires. -/
theorem c2_amended_witness :
    old_messages est0 store0.log ≠ [] ∧
    ((apply_summary_buffer_memory est0 llm_s store0).summaryCalls = 1 ∧
     (apply_summary_buffer_memory est0 llm_s store0).store =
       { store0 with
           conversationSummary :=
             some (summarize_old_messages llm_s (old_messages est0 store0.log)),
           summarizedCount := some (old_messages est0 store0.log).length }) :=
  ⟨by decide,
   (c2_amended_theorem est0 llm_s store0 (by decide)).1 (Or.inl rfl)⟩

/-- A non-empty string is Python-truthy. -/
theorem py_truthy_opt_some_of_ne (s : String) (h : s ≠ "") :
    py_truthy_opt (some s) = true := by
  simp only [py_truthy_opt, Bool.not_eq_true']
  rw [List.isEmpty_eq_false]
  exact fun hd => h ((string_eq_empty_iff s).mpr hd)

/-- A non-empty cached summary whose stored count equals the current
old-turn count is not stale. -/
theorem stale_check_fresh (S : String) (hS : S ≠ "") (L : Nat) :
    stale_check (some S) (some L) L = false := by
  simp [stale_check, py_truthy_opt_some_of_ne S hS]

/-- Claim C3 counterexample: when the Generator's summary text strips to
the empty string, the first compression warms the cache with `""`, yet
the second invocation treats the falsy cached value as absent and invokes
the Generator's summarization again (the claim says the second invocation
performs no such call). -/
theorem c3_counterexample :
    (apply_summary_buffer_memory est0 llm_empty store0).summaryCalls = 1 ∧
    (apply_summary_buffer_memory est0 llm_empty store0).store.conversationSummary
      = some "" ∧
    (apply_summary_buffer_memory est0 llm_empty
        (apply_summary_buffer_memory est0 llm_empty store0).store).summaryCalls
      = 1 := by
  refine ⟨by decide, by decide, by decide⟩

/-- Claim C3 (amended): compression is idempotent under a warm cache
PROVIDED the summary text the Generator produces for the old-turn prefix
is non-empty: with no intervening log growth, the second invocation
returns byte-identical buffered messages (hence byte-identical summary
text), leaves the store untouched and performs no Generator
summarization call. -/
theorem c3_amended_theorem (est : String → Nat) (llm : List LCMessage → String)
    (store : SessionStore)
    (h : summarize_old_messages llm (old_messages est store.log) ≠ "") :
    (apply_summary_buffer_memory est llm
        (apply_summary_buffer_memory est llm store).store).buffered
      = (apply_summary_buffer_memory est llm store).buffered ∧
    (apply_summary_buffer_memory est llm
        (apply_summary_buffer_memory est llm store).store).store
      = (apply_summary_buffer_memory est llm store).store ∧
    (apply_summary_buffer_memory est llm
        (apply_summary_buffer_memory est llm store).store).summaryCalls = 0 := by
  by_cases hlog : store.log.isEmpty
  · simp [apply_summary_buffer_memory, hlog]
  · rw [Bool.not_eq_true] at hlog
    by_cases holdE : (old_messages est store.log).isEmpty
    · simp [apply_summary_buffer_memory, hlog, holdE]
    · rw [Bool.not_eq_true] at holdE
      by_cases hstale : stale_check store.conversationSummary
          store.summarizedCount (old_messages est store.log).length = true
      · have hfresh := stale_check_fresh
          (summarize_old_messages llm (old_messages est store.log)) h
          (old_messages est store.log).length
        simp [apply_summary_buffer_memory, hlog, holdE, hstale, hfresh]
      · rw [Bool.not_eq_true] at hstale
        simp [apply_summary_buffer_memory, hlog, holdE, hstale]

/-- Claim C3 witness: the amended theorem at the 2001-token estimator, the
constant-text model and a cold one-turn session. -/
theorem c3_amended_witness :
    summarize_old_messages llm_s (old_messages est0 store0.log) ≠ "" ∧
    ((apply_summary_buffer_memory est0 llm_s
        (apply_summary_buffer_memory est0 llm_s store0).store).buffered
      = (apply_summary_buffer_memory est0 llm_s store0).buffered ∧
     (apply_summary_buffer_memory est0 llm_s
        (apply_summary_buffer_memory est0 llm_s store0).store).store
      = (apply_summary_buffer_memory est0 llm_s store0).store ∧
     (apply_summary_buffer_memory est0 llm_s
        (apply_summary_buffer_memory est0 llm_s store0).store).summaryCalls = 0) :=
  ⟨by decide, c3_amended_theorem est0 llm_s store0 (by decide)⟩

/-- Claim C4 (confirmed): for every log of data-model turns (roles in the
user/assistant enum) whose total estimated token cost is within the
2000-token budget, compression returns every turn converted verbatim to
its role-tagged message in original order, produces no summary message,
makes no Generator call and writes nothing back to the store. -/
theorem c4_theorem (est : String → Nat) (llm : List LCMessage → String)
    (store : SessionStore)
    (htok : (store.log.map (fun m => est m.content)).sum ≤ MAX_TOKEN_LIMIT)
    (hroles : ∀ m ∈ store.log, m.role = "user" ∨ m.role = "assistant") :
    (apply_summary_buffer_memory est llm store).buffered
      = store.log.map to_role_tagged ∧
    (apply_summary_buffer_memory est llm store).store = store ∧
    (apply_summary_buffer_memory est llm store).summaryCalls = 0 := by
  have hrec := recent_messages_of_total_le est store.log htok
  have hold := old_messages_of_total_le est store.log htok
  by_cases hlog : store.log.isEmpty
  · have hnil : store.log = [] := List.isEmpty_iff.mp hlog
    simp [apply_summary_buffer_memory, hlog, hnil]
  · rw [Bool.not_eq_true] at hlog
    have holdE : (old_messages est store.log).isEmpty = true := by
      rw [hold]; rfl
    simp [apply_summary_buffer_memory, hlog, holdE, hrec,
      convert_eq_map_of_valid store.log hroles]

/-- A two-turn under-budget session with valid roles. -/
def store_ua : SessionStore := ⟨[⟨"user", "a"⟩, ⟨"assistant", "b"⟩], none, none⟩

/-- Claim C4 witness: the theorem at the one-token estimator and a
two-turn log. -/
theorem c4_witness :
    (store_ua.log.map (fun m => est1 m.content)).sum ≤ MAX_TOKEN_LIMIT ∧
    (∀ m ∈ store_ua.log, m.role = "user" ∨ m.role = "assistant") ∧
    ((apply_summary_buffer_memory est1 llm_s store_ua).buffered
       = store_ua.log.map to_role_tagged ∧
     (apply_summary_buffer_memory est1 llm_s store_ua).store = store_ua ∧
     (apply_summary_buffer_memory est1 llm_s store_ua).summaryCalls = 0) :=
  ⟨by decide, by decide,
   c4_theorem est1 llm_s store_ua (by decide) (by decide)⟩

/-- Claim C5 (confirmed): `process_message` appends the user and the
assistant turns, in that order, only after the chat generation succeeds;
when the generation call raises, the message log is exactly what it was
before the call (the summary fields may have been refreshed, but no turn
is appended, so "user turn present, assistant turn absent" cannot arise). -/
theorem c5_theorem (system_prompt : String) (est : String → Nat)
    (llm : List LCMessage → String)
    (chat_gen : List LCMessage → Except Unit String)
    (diary_outcome : Except Unit (List RetrievedItem))
    (vs_outcome : Option (Except Unit String))
    (store : SessionStore) (user_message : String) :
    (∀ e, chat_gen (process_context system_prompt est llm diary_outcome
        vs_outcome store user_message) = .error e →
      (process_message system_prompt est llm chat_gen diary_outcome
          vs_outcome true store user_message).store.log = store.log) ∧
    (∀ r, chat_gen (process_context system_prompt est llm diary_outcome
        vs_outcome store user_message) = .ok r →
      (process_message system_prompt est llm chat_gen diary_outcome
          vs_outcome true store user_message).store.log
        = store.log ++ [⟨"user", user_message⟩, ⟨"assistant", r⟩]) := by
  constructor
  · intro e he
    simp [process_message, he, apply_summary_buffer_memory_log]
  · intro r hr
    simp [process_message, hr, add_message, apply_summary_buffer_memory_log]

/-- A chat generation call that always succeeds with the text `"ans"`. -/
def chat_gen_ok : List LCMessage → Except Unit String := fun _ => .ok "ans"

/-- A chat generation call that always raises. -/
def chat_gen_err : List LCMessage → Except Unit String := fun _ => .error ()

/-- Claim C5 witness: a failed generation leaves the two-turn log intact;
a successful one appends exactly the user and assistant turns in order. -/
theorem c5_witness :
    (process_message "sys" est1 llm_s chat_gen_err (.ok []) none true
        store_ua "go").store.log = store_ua.log ∧
    (process_message "sys" est1 llm_s chat_gen_ok (.ok []) none true
        store_ua "go").store.log
      = store_ua.log ++ [⟨"user", "go"⟩, ⟨"assistant", "ans"⟩] :=
  ⟨( c5_theorem "sys" est1 llm_s chat_gen_err (.ok []) none store_ua "go").1
     () rfl,
   ( c5_theorem "sys" est1 llm_s chat_gen_ok (.ok []) none store_ua "go").2
     "ans" rfl⟩

/-- Claim C6 (confirmed, diary side modelled from the spec): each of the
two retrieval calls of `process_message` degrades individually on
failure — a raising diary retrieval behaves exactly like an empty
retrieval result, a raising knowledge-base query behaves exactly like no
knowledge base being configured, and with both retrievals failing the
call still reaches generation, erring only if generation itself raises. -/
theorem c6_theorem (system_prompt : String) (est : String → Nat)
    (llm : List LCMessage → String)
    (chat_gen : List LCMessage → Except Unit String)
    (store : SessionStore) (user_message : String) :
    (∀ vs_outcome, process_message system_prompt est llm chat_gen
        (.error ()) vs_outcome true store user_message
      = process_message system_prompt est llm chat_gen
        (.ok []) vs_outcome true store user_message) ∧
    (∀ diary_outcome, process_message system_prompt est llm chat_gen
        diary_outcome (some (.error ())) true store user_message
      = process_message system_prompt est llm chat_gen
        diary_outcome none true store user_message) ∧
    (∀ e, (process_message system_prompt est llm chat_gen (.error ())
        (some (.error ())) true store user_message).result = .error e →
      e = ProcError.generationFailure) := by
  refine ⟨fun _ => rfl, fun _ => rfl, ?_⟩
  intro e he
  simp only [process_message, if_pos] at he
  split at he
  · simp only [Except.error.injEq] at he
    exact he.symm
  · exact absurd he (by simp)

/-- Claim C6 witness: with both retrievers raising and a raising
generator, the propagated error is the generation failure. -/
theorem c6_witness :
    (process_message "sys" est1 llm_s chat_gen_err (.error ())
        (some (.error ())) true store_ua "go").result
      = .error ProcError.generationFailure ∧
    ProcError.generationFailure = ProcError.generationFailure :=
  ⟨rfl,
   ( c6_theorem "sys" est1 llm_s chat_gen_err store_ua "go").2.2
     ProcError.generationFailure rfl⟩


/-- Claim C7 (confirmed): context assembly is a pure function with fixed
order — one system message holding the base instructions, then the
knowledge block exactly when the manual context is present (truthy), then
the diary block exactly when diary items exist, with the items rendered
in retrieval order as the concatenation of their individual
`diary_line`s (index from 1); then the buffered messages verbatim; then
the current user message last, with no reordering and no deduplication.
Each rendered diary line is a fixed prefix, the content cut hard at 200
characters, and the fixed `"...\n"` suffix. -/
theorem c7_theorem (system_prompt : String)
    (similar_diaries : List RetrievedItem) (buffered_messages : List LCMessage)
    (current_message : String) (manual_context : Option String) :
    build_context_with_memory system_prompt similar_diaries buffered_messages
        current_message manual_context
      = LCMessage.system
          ((if py_truthy_opt manual_context then
              system_prompt ++ "\n"
                ++ ("\n\n**전문 지식 (참고 자료):**\n" ++ manual_context.getD "" ++ "\n")
            else system_prompt)
           ++ (if similar_diaries = [] then ""
               else "\n" ++ ("\n\n**과거 일기 참고:**\n"
                 ++ ((similar_diaries.enumFrom 1).map
                       (fun p => diary_line p.1 p.2)).foldr
                      (fun a b => a ++ b) "")))
        :: buffered_messages ++ [LCMessage.human current_message] ∧
    (∀ idx d, diary_line idx d
        = (toString idx ++ ". [" ++ d.createdAt.getD "알 수 없음" ++ "] ")
          ++ py_slice d.content 200 ++ "...\n") ∧
    (∀ s : String, (py_slice s 200).length ≤ 200) := by
  refine ⟨?_, fun idx d => by simp [diary_line, String.append_assoc], fun s => ?_⟩
  · unfold build_context_with_memory
    have hdc : diary_context_of similar_diaries
        = "\n\n**과거 일기 참고:**\n"
          ++ ((similar_diaries.enumFrom 1).map
                (fun p => diary_line p.1 p.2)).foldr (fun a b => a ++ b) "" := by
      unfold diary_context_of
      exact foldl_append_string _ _ _
    by_cases hsd : similar_diaries = []
    · cases hmc : py_truthy_opt manual_context <;>
        simp [hsd, hmc, String.append_assoc, String.append_empty]
    · have hsdE : similar_diaries.isEmpty = false := List.isEmpty_eq_false.mpr hsd
      cases hmc : py_truthy_opt manual_context
      · simp [hsdE, hsd, hmc, hdc, String.append_assoc]
      · simp [hsdE, hsd, hmc, hdc, String.append_assoc]
        rw [show ("\n\n" : String) = "\n" ++ "\n" from rfl]
        simp only [String.append_assoc]
  · have hlen : (py_slice s 200).length = (s.toList.take 200).length := rfl
    rw [hlen, List.length_take]
    exact Nat.min_le_left _ _

/-- Claim C8 counterexample: stage-1 output `"x\x7ba\x7d"` yields the
extracted span `"\x7ba\x7d"`, which fails JSON parsing; the pipeline
returns the fixed format-failure message, but its diagnostic contains
only the extracted span — NOT the raw offending output, which it does
not contain as a contiguous substring, contradicting the claim. -/
theorem c8_counterexample :
    (summarize_conversation_to_diary ecX pc_s dc_s jl_none log1).result.diary_text
      = "일기 생성 중 오류가 발생했습니다. 분석된 데이터 형식이 올바르지 않습니다." ∧
    ¬ ((ecX (transcript_of log1)).toList <:+:
       (summarize_conversation_to_diary ecX pc_s dc_s
         jl_none log1).result.alternative_perspective.toList) := by
  refine ⟨by decide, by decide⟩

/-- Claim C8 (amended): for every non-empty transcript whose stage-1
output yields no parsable JSON, diary generation returns a result object
(never an exception — the embedding is a total function) holding a fixed
user-facing failure message and a diagnostic containing the offending
text: the full raw output when no JSON span could be extracted, and the
extracted span (itself a contiguous piece of the raw output) when the
span fails JSON parsing. -/
theorem c8_amended_theorem
    (extract_chain perspective_chain diary_chain : String → String)
    (json_loads : String → Option CBTData) (full_conversation : List Msg)
    (hne : full_conversation ≠ []) :
    (extract_json_from_markdown
        (extract_chain (transcript_of full_conversation)) = none →
      summarize_conversation_to_diary extract_chain perspective_chain
          diary_chain json_loads full_conversation
        = ⟨⟨"일기 생성 중 오류가 발생했습니다. 대화 내용을 분석하는 데 실패했습니다.",
            "오류: AI 응답에서 CBT 데이터를 추출하지 못했습니다. (응답: "
              ++ extract_chain (transcript_of full_conversation) ++ ")"⟩, 1⟩) ∧
    (∀ s, extract_json_from_markdown
        (extract_chain (transcript_of full_conversation)) = some s →
      json_loads s = none →
      summarize_conversation_to_diary extract_chain perspective_chain
          diary_chain json_loads full_conversation
        = ⟨⟨"일기 생성 중 오류가 발생했습니다. 분석된 데이터 형식이 올바르지 않습니다.",
            "오류: AI가 생성한 CBT 데이터의 형식이 잘못되었습니다. (내용: " ++ s ++ ")"⟩, 1⟩ ∧
      s.toList <:+: (extract_chain (transcript_of full_conversation)).toList) := by
  have hE : full_conversation.isEmpty = false := List.isEmpty_eq_false.mpr hne
  constructor
  · intro hnone
    simp [summarize_conversation_to_diary, hE, hnone]
  · intro s hsome hload
    refine ⟨?_, extract_json_isInfix _ _ hsome⟩
    simp [summarize_conversation_to_diary, hE, hsome, hload]

/-- A stage-1 extraction chain with brace-free output. -/
def ec_plain : String → String := fun _ => "no json here"

/-- Claim C8 witness: the amended theorem at a one-turn log and a
brace-free stage-1 output — the no-span branch fires with the raw output
inside the diagnostic. -/
theorem c8_amended_witness :
    log1 ≠ [] ∧
    extract_json_from_markdown (ec_plain (transcript_of log1)) = none ∧
    summarize_conversation_to_diary ec_plain pc_s dc_s jl_none log1
      = ⟨⟨"일기 생성 중 오류가 발생했습니다. 대화 내용을 분석하는 데 실패했습니다.",
          "오류: AI 응답에서 CBT 데이터를 추출하지 못했습니다. (응답: "
            ++ ec_plain (transcript_of log1) ++ ")"⟩, 1⟩ :=
  ⟨by decide, by decide,
   (c8_amended_theorem ec_plain pc_s dc_s jl_none log1 (by decide)).1 (by decide)⟩

/-- Claim C9 (confirmed): an empty conversation log short-circuits diary
generation to the fixed no-content result — fixed diary text, empty
alternative perspective — with zero model-chain invocations. -/
theorem c9_theorem
    (extract_chain perspective_chain diary_chain : String → String)
    (json_loads : String → Option CBTData) :
    summarize_conversation_to_diary extract_chain perspective_chain
        diary_chain json_loads []
      = ⟨⟨"일기를 생성할 대화 내용이 없습니다.", ""⟩, 0⟩ := rfl

/-- A session whose single turn carries an out-of-enum role. -/
def store_tool : SessionStore := ⟨[⟨"tool", "hi"⟩], none, none⟩

/-- Claim C10 (confirmed): the conversion maps `user` turns to user-role
messages and `assistant` turns to assistant-role messages and silently
drops every other role (it is exactly that filter-map); consequently, for
the concrete under-budget log whose sole turn has role `"tool"`, the
recency window is the whole log yet the buffered output is empty — the
returned recent messages do not equal the recent slice of the log. -/
theorem c10_theorem :
    (∀ msgs : List Msg, convert_to_langchain_messages msgs
        = msgs.filterMap (fun m =>
            if m.role = "user" then some (LCMessage.human m.content)
            else if m.role = "assistant" then some (LCMessage.ai m.content)
            else none)) ∧
    store_tool.log ≠ [] ∧
    recent_messages est1 store_tool.log = store_tool.log ∧
    (apply_summary_buffer_memory est1 llm_s store_tool).buffered = [] := by
  refine ⟨convert_eq_filterMap, by decide, by decide, by decide⟩
